import Mathlib

/-!
Verification of the coherence multi-agent coordination runtime.

Shallow embedding of the MongoDB-backed coordination plane:
message bus (src/coordination/messages.ts), inbox previews and the
tool executor (src/api/server.ts), the in-sandbox runtime helpers
(src/sandbox/agent-bundle.ts), the sandbox manager
(src/sandbox/manager.ts) and the session-id generator.

Dates are modelled as epoch milliseconds (Nat).  MongoDB string
sorting is modelled by lexicographic character order, which agrees
with BSON UTF-8 byte order on the ASCII values used here.
-/

namespace Coherence

/-- JavaScript String.prototype.slice with nonnegative in-range
indices, the only form used by the source. -/
def jsSlice (s : String) (a b : Nat) : String :=
  String.mk ((s.data.drop a).take (b - a))

-- ============================================================
-- Data model (src/db/mongo.ts schemas)
-- ============================================================

inductive Priority
  | high
  | normal
  | low
deriving DecidableEq, Repr

/-- The string stored in MongoDB for a priority value. -/
def priorityStr : Priority → String
  | .high => "high"
  | .normal => "normal"
  | .low => "low"

inductive MessageType
  | task
  | result
  | status
  | error
deriving DecidableEq, Repr

structure Message where
  messageId : String
  fromAgent : String
  toAgent : String
  content : String
  mtype : MessageType
  threadId : String
  priority : Priority
  readAt : Option Nat
  createdAt : Nat
deriving DecidableEq, Repr

-- ============================================================
-- Inbox query (src/coordination/messages.ts getInbox)
-- ============================================================

/-- Lexicographic comparison of character lists by code point;
agrees with BSON UTF-8 byte order on the ASCII data used here. -/
def charListLtB : List Char → List Char → Bool
  | [], [] => false
  | [], _ :: _ => true
  | _ :: _, [] => false
  | a :: as, b :: bs =>
    if a.toNat < b.toNat then true
    else if b.toNat < a.toNat then false
    else charListLtB as bs

/-- BSON string comparison. -/
def strLtB (a b : String) : Bool := charListLtB a.data b.data

/-- The comparison realised by the MongoDB sort specification
sort(priority: -1, createdAt: 1) on the messages collection:
priority is a string field, so the primary key is the BSON
string order of the stored priority value, descending. -/
def mongoInboxLe (m1 m2 : Message) : Bool :=
  if priorityStr m1.priority = priorityStr m2.priority then
    m1.createdAt ≤ m2.createdAt
  else
    strLtB (priorityStr m2.priority) (priorityStr m1.priority)

/-- Insertion of one element into a list sorted by le. -/
def insertSorted (le : α → α → Bool) (x : α) : List α → List α
  | [] => [x]
  | y :: ys => if le x y then x :: y :: ys else y :: insertSorted le x ys

/-- Insertion sort by a boolean comparison; models the order of a
MongoDB find().sort() result for a total sort key. -/
def sortByLe (le : α → α → Bool) : List α → List α
  | [] => []
  | x :: xs => insertSorted le x (sortByLe le xs)

/-- getInbox(agentId): unread messages addressed to the agent,
in the order produced by sort(priority: -1, createdAt: 1). -/
def getInbox (store : List Message) (agentId : String) : List Message :=
  sortByLe mongoInboxLe
    (store.filter (fun m => m.toAgent == agentId && m.readAt == none))

-- ============================================================
-- Inbox previews (src/api/server.ts executeTool checkInbox case,
-- and the AGENT_RUNNER_SCRIPT checkInbox helper)
-- ============================================================

/-- Preview projection of the host-side checkInbox tool:
content.slice(0, 50) plus three dots when content.length is
greater than 50. -/
def previewServer (content : String) : String :=
  jsSlice content 0 50 ++ (if content.length > 50 then "..." else "")

/-- Preview built by the in-sandbox checkInbox helper, with
PREVIEW_LENGTH = 50. -/
def previewBundle (content : String) : String :=
  if content.length > 50 then jsSlice content 0 50 ++ "..." else content

-- ============================================================
-- Message bus operations (src/coordination/messages.ts and the
-- readMessage case of executeTool in src/api/server.ts)
-- ============================================================

structure SendMessageInput where
  fromAgent : String
  toAgent : String
  content : String
  mtype : MessageType
  threadId : Option String
  priority : Option Priority
deriving DecidableEq, Repr

/-- sendMessage: builds the stored record with a fresh messageId,
threadId defaulted to a fresh id, priority defaulted to normal,
readAt null and createdAt now. -/
def sendMessage (input : SendMessageInput) (freshMsgId freshThreadId : String)
    (now : Nat) : Message :=
  { messageId := freshMsgId
    fromAgent := input.fromAgent
    toAgent := input.toAgent
    content := input.content
    mtype := input.mtype
    threadId := input.threadId.getD freshThreadId
    priority := input.priority.getD .normal
    readAt := none
    createdAt := now }

/-- updateOne semantics: apply f to the first document matching p. -/
def updateFirst (p : α → Bool) (f : α → α) : List α → List α
  | [] => []
  | x :: xs => if p x then f x :: xs else x :: updateFirst p f xs

/-- markAsRead: updateOne(messageId filter, set readAt = now),
unconditionally overwriting any previous readAt. -/
def markAsRead (store : List Message) (messageId : String) (now : Nat) :
    List Message :=
  updateFirst (fun m => m.messageId == messageId)
    (fun m => { m with readAt := some now }) store

/-- The payload returned by the readMessage tool. -/
structure ReadMessagePayload where
  messageId : String
  fromAgent : String
  content : String
  mtype : MessageType
  threadId : String
  createdAt : Nat
deriving DecidableEq, Repr

/-- The readMessage case of executeTool: findOne by messageId;
on a miss return a not-found result without marking; on a hit
mark as read and return the full payload. -/
def readMessageTool (store : List Message) (messageId : String) (now : Nat) :
    Option ReadMessagePayload × List Message :=
  match store.find? (fun m => m.messageId == messageId) with
  | none => (none, store)
  | some m =>
      (some ⟨m.messageId, m.fromAgent, m.content, m.mtype, m.threadId,
             m.createdAt⟩,
       markAsRead store messageId now)

-- ============================================================
-- Task helpers of the in-sandbox runtime
-- (src/sandbox/agent-bundle.ts, coordination.assignTask and
-- coordination.completeTask in AGENT_RUNNER_SCRIPT)
-- ============================================================

inductive TaskStatus
  | pending
  | assigned
  | inProgress
  | completed
  | failed
deriving DecidableEq, Repr

structure Task where
  taskId : String
  parentTaskId : Option String
  assignedTo : Option String
  title : String
  description : String
  status : TaskStatus
  result : Option String
  createdAt : Nat
  updatedAt : Nat
deriving DecidableEq, Repr

/-- coordination.assignTask: updateOne(taskId filter, set
assignedTo, status assigned, updatedAt now) with no precondition
on the current status. -/
def assignTask (store : List Task) (taskId agentId : String) (now : Nat) :
    List Task :=
  updateFirst (fun t => t.taskId == taskId)
    (fun t => { t with assignedTo := some agentId, status := .assigned,
                       updatedAt := now }) store

/-- coordination.completeTask: updateOne(taskId filter, set status
completed, result, updatedAt now) with no precondition on the
current status. -/
def completeTask (store : List Task) (taskId result : String) (now : Nat) :
    List Task :=
  updateFirst (fun t => t.taskId == taskId)
    (fun t => { t with status := .completed, result := some result,
                       updatedAt := now }) store

-- ============================================================
-- Session ids (getOrCreateSessionId in src/api/server.ts and in
-- AGENT_RUNNER_SCRIPT; both build the same id string)
-- ============================================================

/-- The id built for a fresh session.  randStr stands for the
JavaScript value Math.random().toString(36), which has the form
"0." followed by base-36 fraction digits; the source takes
randStr.slice(2, 9). -/
def newSessionId (nowMs : Nat) (randStr : String) : String :=
  "session-" ++ toString nowMs ++ "-" ++ jsSlice randStr 2 9

/-- getOrCreateSessionId: return the stored sessionId if present,
otherwise generate a new id and store it.  The first component is
the returned id, the second the stored sessionId after the call. -/
def getOrCreateSessionId (stored : Option String) (nowMs : Nat)
    (randStr : String) : String × Option String :=
  match stored with
  | some s => (s, some s)
  | none =>
      let sessionId := newSessionId nowMs randStr
      (sessionId, some sessionId)

-- ============================================================
-- Host-side tool catalogue (coordinationTools in
-- src/api/server.ts) and the in-sandbox spawnSpecialist helper
-- (AGENT_RUNNER_SCRIPT in src/sandbox/agent-bundle.ts)
-- ============================================================

/-- The names of the tools in the coordinationTools array, in
source order.  This is the fixed catalogue passed to the LLM by
the host-side agentic loop. -/
def coordinationToolNames : List String :=
  ["checkInbox", "readMessage", "sendMessage", "checkpoint",
   "createTask", "assignTask", "completeTask", "getTaskStatus",
   "listAgents"]

inductive AgentType
  | director
  | specialist
deriving DecidableEq, Repr

/-- Agent record as inserted by the in-sandbox spawnSpecialist
helper (status, sandboxStatus and specialization are stored as
strings in the collection). -/
structure AgentRecord where
  agentId : String
  agtype : AgentType
  specialization : String
  status : String
  sandboxId : Option String
  sandboxStatus : String
  parentId : Option String
  taskId : Option String
  createdAt : Nat
  lastHeartbeat : Nat
deriving DecidableEq, Repr

/-- coordination.spawnSpecialist: throws unless the calling agent
is a director; otherwise inserts a new specialist agent record
(idle, no sandbox, parentId = the director) and returns the fresh
specialist id.  It does not start any process. -/
def bundleSpawnSpecialist (callerType : AgentType) (callerId : String)
    (specialization : String) (freshId : String) (now : Nat)
    (agents : List AgentRecord) :
    Except String (String × List AgentRecord) :=
  if callerType ≠ .director then
    .error "Only directors can spawn specialists"
  else
    .ok (freshId,
      agents ++ [{ agentId := freshId
                   agtype := .specialist
                   specialization := specialization
                   status := "idle"
                   sandboxId := none
                   sandboxStatus := "none"
                   parentId := some callerId
                   taskId := none
                   createdAt := now
                   lastHeartbeat := now }])

-- ============================================================
-- waitForSpecialists (coordination.waitForSpecialists in
-- AGENT_RUNNER_SCRIPT) and the director call site
-- ============================================================

/-- The sleep between polls, in milliseconds (setTimeout 2000). -/
def waitPollIntervalMs : Nat := 2000

/-- The default value of the timeoutMs parameter of
waitForSpecialists. -/
def waitForSpecialistsDefaultTimeoutMs : Nat := 60000

/-- The timeout the director orchestration passes explicitly to
waitForSpecialists. -/
def directorWaitTimeoutMs : Nat := 120000

/-- The number of polls performed before the timeout elapses, for
instantaneous queries: polls happen at elapsed 0, 2000, 4000, ...
while elapsed < timeoutMs. -/
def waitNumPolls (timeoutMs : Nat) : Nat :=
  (timeoutMs + waitPollIntervalMs - 1) / waitPollIntervalMs

/-- The query find(assignedTo in ids).sort(createdAt: -1). -/
def specialistTasksOf (ids : List String) (store : List Task) : List Task :=
  sortByLe (fun a b => b.createdAt ≤ a.createdAt)
    (store.filter (fun t => match t.assignedTo with
      | some a => ids.contains a
      | none => false))

/-- A task counts as still pending for the wait loop unless it is
completed or failed. -/
def waitPending (ts : List Task) : List Task :=
  ts.filter (fun t => !(t.status == .completed) && !(t.status == .failed))

/-- The wait loop over the sequence of task-store snapshots seen
at each poll; finalStore is the snapshot seen by the re-query
after the timeout.  Returns the specialist tasks of the first
snapshot in which all of them are terminal and at least one
exists, and otherwise the specialist tasks of the final store. -/
def waitForSpecialists (ids : List String) :
    List (List Task) → List Task → List Task
  | [], finalStore => specialistTasksOf ids finalStore
  | store :: rest, finalStore =>
      let st := specialistTasksOf ids store
      if (waitPending st).isEmpty && !st.isEmpty then st
      else waitForSpecialists ids rest finalStore

-- ============================================================
-- Agent launch command and environment
-- (buildAgentCommand and buildAgentEnvVars in
-- src/sandbox/agent-bundle.ts)
-- ============================================================

inductive Specialization
  | researcher
  | writer
  | analyst
  | general
deriving DecidableEq, Repr

def specializationStr : Specialization → String
  | .researcher => "researcher"
  | .writer => "writer"
  | .analyst => "analyst"
  | .general => "general"

def agentTypeStr : AgentType → String
  | .director => "director"
  | .specialist => "specialist"

structure AgentRunConfig where
  agentId : String
  agentType : AgentType
  specialization : Option Specialization
  task : String
  parentId : Option String
deriving DecidableEq, Repr

/-- buildAgentCommand: only identity flags are interpolated into
the command string; the task is deliberately absent. -/
def buildAgentCommand (cfg : AgentRunConfig) : String :=
  let args :=
    ["--agentId \"" ++ cfg.agentId ++ "\"",
     "--agentType \"" ++ agentTypeStr cfg.agentType ++ "\""]
  let args := args ++
    (match cfg.specialization with
     | some s => ["--specialization \"" ++ specializationStr s ++ "\""]
     | none => [])
  let args := args ++
    (match cfg.parentId with
     | some p => ["--parentId \"" ++ p ++ "\""]
     | none => [])
  "node /home/user/squad-lite/agent-runner.js " ++ String.intercalate " " args

/-- buildAgentEnvVars: the task travels in the AGENT_TASK
environment variable. -/
def buildAgentEnvVars (cfg : AgentRunConfig) : List (String × String) :=
  [("AGENT_TASK", cfg.task), ("AGENT_ID", cfg.agentId)]

-- ============================================================
-- Sandbox manager (src/sandbox/manager.ts): in-memory agent map
-- and the behavior of kill, execute, pause and resume.  The
-- remote sandbox provider is an external collaborator; its calls
-- are outside the model, and the embedded behavior covers the
-- in-memory metadata state.
-- ============================================================

structure ManagerInstance where
  sandboxId : String
  agentId : String
  status : String
  processStatus : String
  lastHeartbeat : Nat
deriving DecidableEq, Repr

structure ManagerState where
  agents : List (String × ManagerInstance)
deriving DecidableEq, Repr

inductive SandboxError
  | notFound (agentId : String)
deriving DecidableEq, Repr

/-- kill(agentId): a no-op when the agent was never registered;
otherwise the instance is marked killed and removed from the map. -/
def managerKill (st : ManagerState) (agentId : String) : ManagerState :=
  match st.agents.lookup agentId with
  | none => st
  | some _ =>
      { agents := st.agents.filter (fun p => !(p.1 == agentId)) }

/-- execute(agentId, command): throws SandboxNotFoundError for an
unregistered agent; on success the remote command runs (external)
and the instance heartbeat advances. -/
def managerExecute (st : ManagerState) (agentId : String) (now : Nat) :
    Except SandboxError ManagerState :=
  match st.agents.lookup agentId with
  | none => .error (.notFound agentId)
  | some _ =>
      .ok { agents := st.agents.map (fun p =>
              if p.1 == agentId then (p.1, { p.2 with lastHeartbeat := now })
              else p) }

/-- pause(agentId): throws SandboxNotFoundError for an
unregistered agent; otherwise every registered instance is marked
paused. -/
def managerPause (st : ManagerState) (agentId : String) :
    Except SandboxError ManagerState :=
  match st.agents.lookup agentId with
  | none => .error (.notFound agentId)
  | some _ =>
      .ok { agents := st.agents.map (fun p =>
              (p.1, { p.2 with status := "paused" })) }

/-- resume(agentId): throws SandboxNotFoundError for an
unregistered agent; otherwise every registered instance is marked
active with a fresh heartbeat. -/
def managerResume (st : ManagerState) (agentId : String) (now : Nat) :
    Except SandboxError ManagerState :=
  match st.agents.lookup agentId with
  | none => .error (.notFound agentId)
  | some _ =>
      .ok { agents := st.agents.map (fun p =>
              (p.1, { p.2 with status := "active", lastHeartbeat := now })) }

-- ============================================================
-- Director decomposition parsing (runDirectorOrchestration in
-- AGENT_RUNNER_SCRIPT).  JSON.parse is a JavaScript builtin; it
-- is modelled here by a standard JSON grammar parser that fails
-- on trailing non-whitespace, as JSON.parse does.
-- ============================================================

inductive Json
  | null
  | bool (b : Bool)
  | num (lexeme : String)
  | str (s : String)
  | arr (items : List Json)
  | obj (fields : List (String × Json))
deriving Repr, BEq

def isJsonWs (c : Char) : Bool :=
  c == ' ' || c == '\t' || c == '\n' || c == '\r'

def skipWs : List Char → List Char
  | c :: cs => if isJsonWs c then skipWs cs else c :: cs
  | [] => []

def hexVal (c : Char) : Option Nat :=
  let n := c.toNat
  if 48 ≤ n ∧ n ≤ 57 then some (n - 48)
  else if 97 ≤ n ∧ n ≤ 102 then some (n - 97 + 10)
  else if 65 ≤ n ∧ n ≤ 70 then some (n - 65 + 10)
  else none

def parseStringBody : Nat → List Char → List Char → Option (String × List Char)
  | 0, _, _ => none
  | _ + 1, [], _ => none
  | fuel + 1, c :: cs, acc =>
    if c == '"' then some (String.mk acc.reverse, cs)
    else if c.toNat < 32 then none
    else if c == '\\' then
      match cs with
      | [] => none
      | e :: cs2 =>
        if e == '"' then parseStringBody fuel cs2 ('"' :: acc)
        else if e == '\\' then parseStringBody fuel cs2 ('\\' :: acc)
        else if e == '/' then parseStringBody fuel cs2 ('/' :: acc)
        else if e == 'b' then parseStringBody fuel cs2 ('\x08' :: acc)
        else if e == 'f' then parseStringBody fuel cs2 ('\x0c' :: acc)
        else if e == 'n' then parseStringBody fuel cs2 ('\n' :: acc)
        else if e == 'r' then parseStringBody fuel cs2 ('\x0d' :: acc)
        else if e == 't' then parseStringBody fuel cs2 ('\t' :: acc)
        else if e == 'u' then
          match cs2 with
          | h1 :: h2 :: h3 :: h4 :: cs3 =>
            match hexVal h1, hexVal h2, hexVal h3, hexVal h4 with
            | some a, some b, some c3, some d =>
                parseStringBody fuel cs3
                  (Char.ofNat (((a * 16 + b) * 16 + c3) * 16 + d) :: acc)
            | _, _, _, _ => none
          | _ => none
        else none
    else parseStringBody fuel cs (c :: acc)

def isDigitChar (c : Char) : Bool := 48 ≤ c.toNat && c.toNat ≤ 57

def digitSpan (cs : List Char) : List Char × List Char :=
  (cs.takeWhile isDigitChar, cs.dropWhile isDigitChar)

def parseFracPart (cs : List Char) : Option (List Char × List Char) :=
  match cs with
  | '.' :: rest =>
      let p := digitSpan rest
      if p.1.isEmpty then none else some ('.' :: p.1, p.2)
  | _ => some ([], cs)

def parseExpPart (cs : List Char) : Option (List Char × List Char) :=
  match cs with
  | c :: rest =>
      if c == 'e' || c == 'E' then
        let sgnRest :=
          match rest with
          | s :: r2 => if s == '+' || s == '-' then ([s], r2) else ([], rest)
          | [] => (([] : List Char), rest)
        let p := digitSpan sgnRest.2
        if p.1.isEmpty then none else some (c :: (sgnRest.1 ++ p.1), p.2)
      else some ([], cs)
  | [] => some ([], cs)

def parseNumberLexeme (cs : List Char) : Option (String × List Char) :=
  let negRest :=
    match cs with
    | '-' :: rest => ((['-'] : List Char), rest)
    | _ => ([], cs)
  let p := digitSpan negRest.2
  if p.1.isEmpty then none
  else if p.1.length > 1 && p.1.head? == some '0' then none
  else
    match parseFracPart p.2 with
    | none => none
    | some (fr, cs3) =>
        match parseExpPart cs3 with
        | none => none
        | some (ex, cs4) =>
            some (String.mk (negRest.1 ++ p.1 ++ fr ++ ex), cs4)

/-- JavaScript object construction for a duplicated key: the
later value overwrites the one stored at the position of the
first occurrence. -/
def setObjField (fields : List (String × Json)) (key : String) (v : Json) :
    List (String × Json) :=
  if fields.any (fun p => p.1 == key) then
    fields.map (fun p => if p.1 == key then (p.1, v) else p)
  else fields ++ [(key, v)]

/-- The object JSON.parse builds from the parsed key-value pairs:
duplicate keys are collapsed last-wins, as JavaScript property
assignment does. -/
def objectFromPairs (pairs : List (String × Json)) : List (String × Json) :=
  pairs.foldl (fun acc p => setObjField acc p.1 p.2) []

mutual

def parseJsonValue : Nat → List Char → Option (Json × List Char)
  | 0, _ => none
  | fuel + 1, cs =>
    match skipWs cs with
    | 'n' :: 'u' :: 'l' :: 'l' :: rest => some (.null, rest)
    | 't' :: 'r' :: 'u' :: 'e' :: rest => some (.bool true, rest)
    | 'f' :: 'a' :: 'l' :: 's' :: 'e' :: rest => some (.bool false, rest)
    | '"' :: rest =>
        (match parseStringBody (rest.length + 1) rest [] with
         | some (s, rest2) => some (.str s, rest2)
         | none => none)
    | '[' :: rest =>
        (match skipWs rest with
         | ']' :: rest2 => some (.arr [], rest2)
         | cs2 =>
             match parseJsonItems fuel cs2 with
             | some (items, rest2) => some (.arr items, rest2)
             | none => none)
    | '{' :: rest =>
        (match skipWs rest with
         | '}' :: rest2 => some (.obj [], rest2)
         | cs2 =>
             match parseJsonFields fuel cs2 with
             | some (fields, rest2) =>
                 some (.obj (objectFromPairs fields), rest2)
             | none => none)
    | cs2 =>
        match parseNumberLexeme cs2 with
        | some (lx, rest) => some (.num lx, rest)
        | none => none

def parseJsonItems : Nat → List Char → Option (List Json × List Char)
  | 0, _ => none
  | fuel + 1, cs =>
    match parseJsonValue fuel cs with
    | none => none
    | some (v, rest) =>
        match skipWs rest with
        | ',' :: rest2 =>
            (match parseJsonItems fuel rest2 with
             | some (vs, rest3) => some (v :: vs, rest3)
             | none => none)
        | ']' :: rest2 => some ([v], rest2)
        | _ => none

def parseJsonFields : Nat → List Char →
    Option (List (String × Json) × List Char)
  | 0, _ => none
  | fuel + 1, cs =>
    match skipWs cs with
    | '"' :: rest =>
        (match parseStringBody (rest.length + 1) rest [] with
         | none => none
         | some (key, rest2) =>
             match skipWs rest2 with
             | ':' :: rest3 =>
                 (match parseJsonValue fuel rest3 with
                  | none => none
                  | some (v, rest4) =>
                      match skipWs rest4 with
                      | ',' :: rest5 =>
                          (match parseJsonFields fuel rest5 with
                           | some (fs, rest6) => some ((key, v) :: fs, rest6)
                           | none => none)
                      | '}' :: rest5 => some ([(key, v)], rest5)
                      | _ => none)
             | _ => none)
    | _ => none

end

/-- Model of JSON.parse: parse one value and require only
whitespace after it. -/
def jsonParse (s : String) : Option Json :=
  match parseJsonValue (s.data.length + 1) s.data with
  | some (j, rest) => if (skipWs rest).isEmpty then some j else none
  | none => none

def lastIndexOfChar (c : Char) (cs : List Char) : Option Nat :=
  match cs.reverse.findIdx? (fun x => x == c) with
  | some i => some (cs.length - 1 - i)
  | none => none

/-- The match of the greedy regular expression used by the
director (an opening brace, any characters, a closing brace): it
spans from the first opening brace to the last closing brace of
the text, and fails when no closing brace follows an opening
brace. -/
def regexBraceExtract (s : String) : Option String :=
  let cs := s.data
  match cs.findIdx? (fun x => x == '{'), lastIndexOfChar '}' cs with
  | some i, some j =>
      if i < j then some (String.mk ((cs.drop i).take (j - i + 1))) else none
  | _, _ => none

/-- The fallback subtask used on decomposition parse failure. -/
def fallbackSubtask (task : String) : Json :=
  .obj [("title", .str "Complete task"), ("description", .str task),
        ("specialization", .str "general")]

/-- Whether a JSON number lexeme denotes the value zero: every
mantissa digit before any exponent marker is 0 (an exponent
cannot make zero nonzero). -/
def numLexemeIsZero (lx : String) : Bool :=
  ((lx.data.takeWhile (fun c => !(c == 'e' || c == 'E'))).filter
     isDigitChar).all (fun c => c == '0')

/-- JavaScript truthiness of a JSON.parse result: null, false,
numbers of value zero and the empty string are falsy; everything
else, arrays and objects included, is truthy. -/
def jsTruthy : Json → Bool
  | .null => false
  | .bool b => b
  | .num lx => !(numLexemeIsZero lx)
  | .str s => !(s.isEmpty)
  | .arr _ => true
  | .obj _ => true

/-- The expression parsed.subtasks together with the default of
an empty array (the or with the empty array literal): a property
access on null throws (error, caught by the surrounding catch);
on any other non-object the access yields undefined, defaulted to
the empty array; on an object the field value is kept when
truthy and defaulted when falsy or absent.  The object fields
were collapsed last-wins at parse time, so lookup returns the
stored value. -/
def subtasksFieldValue : Json → Except Unit Json
  | .null => .error ()
  | .obj fields =>
      match fields.lookup "subtasks" with
      | some v => if jsTruthy v then .ok v else .ok (.arr [])
      | none => .ok (.arr [])
  | _ => .ok (.arr [])

/-- The JavaScript test subtasks.length === 0: true for an empty
array or an empty string, true for an object whose length field
is a number of value zero, and false otherwise (on numbers and
booleans the length property is undefined, and undefined is not
strictly equal to 0). -/
def jsLengthIsZero : Json → Bool
  | .arr xs => xs.isEmpty
  | .str s => s.isEmpty
  | .obj fields =>
      match fields.lookup "length" with
      | some (.num lx) => numLexemeIsZero lx
      | _ => false
  | _ => false

/-- The for-of iteration of the spawn loop: an array yields its
items, a string yields its characters as one-character strings,
and any other value is not iterable, so the loop throws a
TypeError outside the try block and the director run surfaces an
error (modelled as none). -/
def jsForOfItems : Json → Option (List Json)
  | .arr xs => some xs
  | .str s => some (s.data.map (fun c => Json.str (String.mk [c])))
  | _ => none

/-- The subtask values the spawn loop iterates, given the task
and the decomposition response text: subtasks starts as the empty
array; inside the try block the greedy brace match is taken and,
when present, JSON.parse runs on it and subtasks becomes
parsed.subtasks defaulted to the empty array; any throw in the
try block (parse failure or property access on null) replaces
subtasks by the single fallback subtask; afterwards a subtasks
with length === 0 is replaced by the single fallback subtask; the
spawn loop then iterates the result, or faults (none) when it is
not iterable. -/
def directorSubtasksIterated (task text : String) : Option (List Json) :=
  let subtasks : Json :=
    match regexBraceExtract text with
    | none => .arr []
    | some sub =>
        match jsonParse sub with
        | none => .arr [fallbackSubtask task]
        | some j =>
            match subtasksFieldValue j with
            | .error _ => .arr [fallbackSubtask task]
            | .ok v => v
  jsForOfItems
    (if jsLengthIsZero subtasks then .arr [fallbackSubtask task]
     else subtasks)

/-- Modelled from the spec: the first JSON object substring of a
text, read as the shortest substring starting at the first
opening brace that parses as a JSON object.  Used only to compare
the claimed reading with regexBraceExtract. -/
def firstJsonObjectSubstring (s : String) : Option String :=
  let cs := s.data
  match cs.findIdx? (fun x => x == '{') with
  | none => none
  | some i =>
      (List.range cs.length).findSome? (fun j =>
        if i < j then
          let cand := String.mk ((cs.drop i).take (j - i + 1))
          match jsonParse cand with
          | some (.obj _) => some cand
          | _ => none
        else none)

-- ============================================================
-- Concrete instances used by counterexamples and witnesses
-- ============================================================

/-- An unread high-priority message created second. -/
def inboxHighMsg : Message :=
  { messageId := "m-high", fromAgent := "agent-b", toAgent := "agent-a",
    content := "urgent", mtype := .status, threadId := "th-1",
    priority := .high, readAt := none, createdAt := 2000 }

/-- An unread normal-priority message created first. -/
def inboxNormalMsg : Message :=
  { messageId := "m-normal", fromAgent := "agent-b", toAgent := "agent-a",
    content := "routine", mtype := .status, threadId := "th-1",
    priority := .normal, readAt := none, createdAt := 1000 }

/-- An unread low-priority message. -/
def inboxLowMsg : Message :=
  { messageId := "m-low", fromAgent := "agent-b", toAgent := "agent-a",
    content := "minor", mtype := .status, threadId := "th-1",
    priority := .low, readAt := none, createdAt := 500 }

/-- A task already in the terminal state failed. -/
def failedTaskCex : Task :=
  { taskId := "t1", parentTaskId := none, assignedTo := some "s1",
    title := "T", description := "D", status := .failed,
    result := some "boom", createdAt := 0, updatedAt := 0 }

/-- A completed task assigned to specialist s1. -/
def doneTaskCex : Task :=
  { taskId := "t2", parentTaskId := none, assignedTo := some "s1",
    title := "T2", description := "D2", status := .completed,
    result := some "ok", createdAt := 0, updatedAt := 0 }

/-- A sendMessage input with defaulted threadId and priority. -/
def sendInputCex : SendMessageInput :=
  { fromAgent := "agent-a", toAgent := "agent-b", content := "hello",
    mtype := .result, threadId := none, priority := none }

/-- A decomposition response that contains a well-formed subtasks
object followed by a second brace pair. -/
def cexText : String :=
  "\x7b\"subtasks\": [\x7b\"title\": \"A\", \"description\": \"B\", \"specialization\": \"general\"\x7d]\x7d \x7b\x7d"

/-- The first JSON object substring of cexText. -/
def cexFirstObj : String :=
  "\x7b\"subtasks\": [\x7b\"title\": \"A\", \"description\": \"B\", \"specialization\": \"general\"\x7d]\x7d"

/-- The subtask carried by cexFirstObj. -/
def cexSubtask : Json :=
  .obj [("title", .str "A"), ("description", .str "B"),
        ("specialization", .str "general")]

/-- A run configuration with task one. -/
def cfgTaskA : AgentRunConfig :=
  { agentId := "agent-1", agentType := .director,
    specialization := some .general, task := "task one",
    parentId := none }

/-- The same run configuration except for the task. -/
def cfgTaskB : AgentRunConfig :=
  { agentId := "agent-1", agentType := .director,
    specialization := some .general, task := "task two",
    parentId := none }

-- ============================================================
-- Theorems
-- ============================================================

/-- Claim C1.  The claim states that getInbox returns unread
messages ordered high first, then normal, then low (FIFO inside a
priority); the source comment above the sort says the same.  The
sort key is the stored priority string descending, and in BSON
string order normal is greater than low, which is greater than
high, so the inbox comes back normal first, low next and high
last.  Evaluated at the failing input: an unread high message and
an unread normal message with the normal one created first yield
the order normal, high instead of the documented high, normal. -/
theorem getInbox_sorts_normal_before_high :
    getInbox [inboxHighMsg, inboxNormalMsg, inboxLowMsg] "agent-a" =
      [inboxNormalMsg, inboxLowMsg, inboxHighMsg] ∧
    getInbox [inboxHighMsg, inboxNormalMsg] "agent-a" =
      [inboxNormalMsg, inboxHighMsg] ∧
    [inboxNormalMsg, inboxHighMsg] ≠ [inboxHighMsg, inboxNormalMsg] ∧
    strLtB "high" "low" = true ∧ strLtB "low" "normal" = true := by
  decide

/-- Claim C2 counterexample.  The in-sandbox task helpers have no
status precondition: assignTask moves a failed (terminal) task
back to assigned, and completeTask rewrites a failed task to
completed, so the claimed guard and terminal immutability are
false. -/
theorem assignTask_completeTask_ignore_status_cex :
    (assignTask [failedTaskCex] "t1" "agent-2" 5).map (fun t => t.status) =
      [.assigned] ∧
    completeTask [failedTaskCex] "t1" "done" 6 ≠ [failedTaskCex] ∧
    (completeTask [failedTaskCex] "t1" "done" 6).map (fun t => t.status) =
      [.completed] := by
  decide

/-- Claim C2 amended.  The in-sandbox coordination.assignTask
unconditionally sets assignedTo and status assigned on the
matched task whatever its current status, and
coordination.completeTask unconditionally sets status completed
and the result; the forward-only DAG is not enforced by these
helpers. -/
theorem assignTask_completeTask_unconditional (t : Task) (a r : String)
    (now : Nat) :
    assignTask [t] t.taskId a now =
      [{ t with assignedTo := some a, status := .assigned,
                updatedAt := now }] ∧
    completeTask [t] t.taskId r now =
      [{ t with status := .completed, result := some r,
                updatedAt := now }] := by
  constructor <;> simp [assignTask, completeTask, updateFirst]

/-- Claim C3 counterexample.  markAsRead filters on messageId only
and sets readAt to the current time unconditionally, so a second
readMessage overwrites the first read timestamp: after reads at
times 10 and 20 the stored readAt is 20, not 10. -/
theorem readMessage_second_read_overwrites_readAt_cex :
    ((readMessageTool
        (readMessageTool [sendMessage sendInputCex "m1" "th1" 0] "m1" 10).2
        "m1" 20).2.map (fun m => m.readAt)) = [some 20] ∧
    ((readMessageTool [sendMessage sendInputCex "m1" "th1" 0] "m1" 10).2.map
        (fun m => m.readAt)) = [some 10] ∧
    (some 20 : Option Nat) ≠ some 10 ∧
    (readMessageTool
        (readMessageTool [sendMessage sendInputCex "m1" "th1" 0] "m1" 10).2
        "m1" 20).1 =
      (readMessageTool [sendMessage sendInputCex "m1" "th1" 0] "m1" 10).1 := by
  decide

/-- Claim C3 amended.  readMessage returns the content, type and
threadId stored at send time, and a second readMessage returns
the same payload; but the read-mark is not idempotent in its
timestamp: the second read leaves readAt equal to the time of the
second read. -/
theorem readMessage_roundtrip_and_read_mark (input : SendMessageInput)
    (mid tid : String) (n0 n1 n2 : Nat) :
    (readMessageTool [sendMessage input mid tid n0] mid n1).1 =
      some ⟨mid, input.fromAgent, input.content, input.mtype,
            input.threadId.getD tid, n0⟩ ∧
    (readMessageTool
        (readMessageTool [sendMessage input mid tid n0] mid n1).2 mid n2).1 =
      (readMessageTool [sendMessage input mid tid n0] mid n1).1 ∧
    (readMessageTool
        (readMessageTool [sendMessage input mid tid n0] mid n1).2 mid n2).2 =
      [{ sendMessage input mid tid n0 with readAt := some n2 }] := by
  refine ⟨?_, ?_, ?_⟩ <;>
    simp [readMessageTool, sendMessage, markAsRead, updateFirst, List.find?]

/-- Claim C4 counterexample.  The generated id takes slice(2, 9)
of Math.random().toString(36), which is at most seven characters,
so the random part of a fresh session id has seven characters and
the claimed nine-character shape is false. -/
theorem sessionId_random_part_is_not_nine_chars_cex :
    (getOrCreateSessionId none 555 "0.abcdefghij").1 =
      "session-555-abcdefg" ∧
    ¬ ∃ r : String, r.length = 9 ∧
        "session-555-abcdefg" = "session-555-" ++ r := by
  constructor
  · rfl
  · rintro ⟨r, h9, heq⟩
    have hlen := congrArg String.length heq
    have hL : ("session-555-abcdefg" : String).length = 19 := by decide
    have hA : ("session-555-" ++ r).length = 12 + r.length := by
      show ("session-555-".data ++ r.data).length = 12 + r.length
      rw [List.length_append]
      rfl
    rw [hL, hA] at hlen
    omega

/-- Claim C4 amended.  getOrCreateSessionId returns a stored
sessionId unchanged, and otherwise generates and stores
session- followed by the epoch milliseconds, a dash and the
characters at positions 2 through 8 of
Math.random().toString(36), that is at most seven random base-36
characters, not nine. -/
theorem getOrCreateSessionId_spec (s : String) (t : Nat) (r frac : String) :
    getOrCreateSessionId (some s) t r = (s, some s) ∧
    (getOrCreateSessionId none t ("0." ++ frac)).1 =
      "session-" ++ toString t ++ "-" ++ String.mk (frac.data.take 7) ∧
    (getOrCreateSessionId none t ("0." ++ frac)).2 =
      some ("session-" ++ toString t ++ "-" ++
            String.mk (frac.data.take 7)) := by
  have hdata : ("0." ++ frac).data = '0' :: '.' :: frac.data := rfl
  have hslice : jsSlice ("0." ++ frac) 2 9 = String.mk (frac.data.take 7) := by
    rw [jsSlice, hdata]
    rfl
  refine ⟨rfl, ?_, ?_⟩ <;>
    simp [getOrCreateSessionId, newSessionId, hslice]

/-- Claim C5.  Both preview implementations (the host-side
checkInbox tool and the in-sandbox helper) return exactly the
first min(50, len) characters of the content, appending three
dots exactly when the content is longer than 50 characters; a
50-character content is returned verbatim and a 51-character one
is truncated with dots. -/
theorem preview_contract (c : String) :
    previewServer c =
      (if c.length ≤ 50 then c else String.mk (c.data.take 50) ++ "...") ∧
    previewBundle c =
      (if c.length ≤ 50 then c else String.mk (c.data.take 50) ++ "...") ∧
    previewServer (String.mk (List.replicate 50 'a')) =
      String.mk (List.replicate 50 'a') ∧
    previewServer (String.mk (List.replicate 51 'a')) =
      String.mk (List.replicate 50 'a') ++ "..." ∧
    previewBundle (String.mk (List.replicate 50 'a')) =
      String.mk (List.replicate 50 'a') := by
  have hslice : jsSlice c 0 50 = String.mk (c.data.take 50) := rfl
  have hlen : c.length = c.data.length := rfl
  refine ⟨?_, ?_, by decide, by decide, by decide⟩
  · unfold previewServer
    rw [hslice]
    by_cases h : c.length ≤ 50
    · rw [if_neg (by omega), if_pos h]
      have ht : c.data.take 50 = c.data := List.take_of_length_le (by omega)
      simp [ht]
    · rw [if_pos (by omega), if_neg h]
  · unfold previewBundle
    rw [hslice]
    by_cases h : c.length ≤ 50
    · rw [if_neg (by omega), if_pos h]
    · rw [if_pos (by omega), if_neg h]

/-- Claim C6 counterexample.  The fixed tool catalogue of the
host-side agentic loop has exactly nine tools and spawnSpecialist
is not among them, so the claimed director-only spawnSpecialist
tool is absent from the catalogue. -/
theorem spawnSpecialist_not_in_host_tool_catalogue_cex :
    "spawnSpecialist" ∉ coordinationToolNames ∧
    coordinationToolNames.length = 9 := by
  decide

/-- Claim C6 amended.  The host-side catalogue does not expose
spawnSpecialist; a spawnSpecialist operation exists only as an
in-sandbox coordination helper, which succeeds only for a
director, inserts one new specialist agent record (idle, no
sandbox, parentId the director) and returns the fresh specialist
id, without starting any process. -/
theorem spawnSpecialist_bundle_only_spec (callerId sp freshId : String)
    (now : Nat) (agents : List AgentRecord) :
    "spawnSpecialist" ∉ coordinationToolNames ∧
    bundleSpawnSpecialist .director callerId sp freshId now agents =
      .ok (freshId,
        agents ++ [{ agentId := freshId, agtype := .specialist,
                     specialization := sp, status := "idle",
                     sandboxId := none, sandboxStatus := "none",
                     parentId := some callerId, taskId := none,
                     createdAt := now, lastHeartbeat := now }]) ∧
    bundleSpawnSpecialist .specialist callerId sp freshId now agents =
      .error "Only directors can spawn specialists" := by
  refine ⟨by decide, ?_, ?_⟩ <;> simp [bundleSpawnSpecialist]

/-- Claim C7 counterexample.  The timeoutMs parameter of
waitForSpecialists defaults to 60000 milliseconds, not the
claimed 120 seconds; the 120000 figure is the explicit argument
of the director call site. -/
theorem waitForSpecialists_default_timeout_cex :
    waitForSpecialistsDefaultTimeoutMs = 60000 ∧
    waitForSpecialistsDefaultTimeoutMs ≠ 120000 ∧
    directorWaitTimeoutMs = 120000 := by
  decide

/-- Claim C7 amended.  The wait loop polls every 2 seconds,
returns the specialist tasks of the first snapshot in which all
of them are terminal and at least one exists, and otherwise
re-queries and returns whatever tasks exist at the timeout
(partial completion accepted).  The default timeout of
waitForSpecialists is 60 seconds; the director passes 120 seconds
explicitly. -/
theorem waitForSpecialists_spec :
    waitPollIntervalMs = 2000 ∧
    waitForSpecialistsDefaultTimeoutMs = 60000 ∧
    directorWaitTimeoutMs = 120000 ∧
    waitNumPolls waitForSpecialistsDefaultTimeoutMs = 30 ∧
    waitNumPolls directorWaitTimeoutMs = 60 ∧
    (∀ (ids : List String) (store : List Task) (rest : List (List Task))
       (finalStore : List Task),
       (waitPending (specialistTasksOf ids store)).isEmpty = true →
       (specialistTasksOf ids store).isEmpty = false →
       waitForSpecialists ids (store :: rest) finalStore =
         specialistTasksOf ids store) ∧
    (∀ (ids : List String) (polls : List (List Task))
       (finalStore : List Task),
       (∀ store ∈ polls,
          ((waitPending (specialistTasksOf ids store)).isEmpty &&
           !(specialistTasksOf ids store).isEmpty) = false) →
       waitForSpecialists ids polls finalStore =
         specialistTasksOf ids finalStore) := by
  refine ⟨rfl, rfl, rfl, rfl, rfl, ?_, ?_⟩
  · intro ids store rest finalStore h1 h2
    simp [waitForSpecialists, h1, h2]
  · intro ids polls finalStore h
    induction polls with
    | nil => rfl
    | cons store rest ih =>
        have hc := h store (List.mem_cons_self store rest)
        simp only [waitForSpecialists, hc]
        exact ih (fun s hs => h s (List.mem_cons_of_mem store hs))

/-- Claim C7 witness: the early-return case of
waitForSpecialists_spec at a snapshot whose single specialist
task is already completed. -/
theorem waitForSpecialists_spec_witness :
    (waitPending (specialistTasksOf ["s1"] [doneTaskCex])).isEmpty = true ∧
    (specialistTasksOf ["s1"] [doneTaskCex]).isEmpty = false ∧
    waitForSpecialists ["s1"] [[doneTaskCex]] [] =
      specialistTasksOf ["s1"] [doneTaskCex] :=
  ⟨by decide, by decide,
   waitForSpecialists_spec.2.2.2.2.2.1 ["s1"] [doneTaskCex] [] []
     (by decide) (by decide)⟩

/-- Claim C8 counterexample.  The decomposition parser applies
JSON.parse to the greedy brace match, which spans from the first
opening brace to the last closing brace of the text; on a text
whose first JSON object substring carries a nonempty subtasks
array but which is followed by a second brace pair, the greedy
match is not that first object, its parse fails, and the director
proceeds with the fallback subtask instead of the parsed
subtasks claimed. -/
theorem decomposition_regex_not_first_object_cex :
    directorSubtasksIterated "orig" cexText = some [fallbackSubtask "orig"] ∧
    firstJsonObjectSubstring cexText = some cexFirstObj ∧
    jsonParse cexFirstObj = some (.obj [("subtasks", .arr [cexSubtask])]) ∧
    subtasksFieldValue (.obj [("subtasks", .arr [cexSubtask])]) =
      .ok (.arr [cexSubtask]) ∧
    regexBraceExtract cexText ≠ some cexFirstObj ∧
    [cexSubtask] ≠ [fallbackSubtask "orig"] := by
  refine ⟨rfl, rfl, rfl, rfl, by decide, ?_⟩
  intro h
  simp [cexSubtask, fallbackSubtask] at h

/-- Claim C8 amended.  The director parses the substring from the
first opening brace to the last closing brace of the response
(the greedy regex match), not the first JSON object substring.
On an absent match, a parse failure, a property access throw, or
a subtasks value of length zero, the director proceeds with
exactly the single fallback subtask; when subtasks parses to a
nonempty array it proceeds with exactly those entries; when it is
a nonempty string the spawn loop iterates its characters; and for
any other truthy subtasks value the loop throws a TypeError and
the run surfaces an error. -/
theorem parseSubtasks_fallback_or_parsed (task text : String) :
    directorSubtasksIterated task text = some [fallbackSubtask task] ∨
    (∃ sub j xs, regexBraceExtract text = some sub ∧
       jsonParse sub = some j ∧
       subtasksFieldValue j = .ok (.arr xs) ∧ xs ≠ [] ∧
       directorSubtasksIterated task text = some xs) ∨
    (∃ sub j s, regexBraceExtract text = some sub ∧
       jsonParse sub = some j ∧
       subtasksFieldValue j = .ok (.str s) ∧ s.isEmpty = false ∧
       directorSubtasksIterated task text =
         some (s.data.map (fun c => Json.str (String.mk [c])))) ∨
    directorSubtasksIterated task text = none := by
  cases hre : regexBraceExtract text with
  | none =>
      left
      simp [directorSubtasksIterated, hre, jsLengthIsZero, jsForOfItems]
  | some sub =>
    cases hjp : jsonParse sub with
    | none =>
        left
        simp [directorSubtasksIterated, hre, hjp, jsLengthIsZero,
              jsForOfItems]
    | some j =>
      cases hsf : subtasksFieldValue j with
      | error e =>
          left
          simp [directorSubtasksIterated, hre, hjp, hsf, jsLengthIsZero,
                jsForOfItems]
      | ok v =>
        have hmain : directorSubtasksIterated task text =
            jsForOfItems
              (if jsLengthIsZero v then Json.arr [fallbackSubtask task]
               else v) := by
          simp [directorSubtasksIterated, hre, hjp, hsf]
        cases hlz : jsLengthIsZero v with
        | true =>
            left
            rw [hlz] at hmain
            simp at hmain
            rw [hmain]
            rfl
        | false =>
            rw [hlz] at hmain
            simp at hmain
            cases v with
            | null => right; right; right; rw [hmain]; rfl
            | bool b => right; right; right; rw [hmain]; rfl
            | num lx => right; right; right; rw [hmain]; rfl
            | str s =>
                right; right; left
                refine ⟨sub, j, s, rfl, hjp, hsf, ?_, ?_⟩
                · simpa [jsLengthIsZero] using hlz
                · rw [hmain]; rfl
            | arr xs =>
                cases xs with
                | nil => simp [jsLengthIsZero] at hlz
                | cons x xs2 =>
                    right; left
                    refine ⟨sub, j, x :: xs2, rfl, hjp, hsf, by simp, ?_⟩
                    rw [hmain]
                    rfl
            | obj fields => right; right; right; rw [hmain]; rfl

/-- Claim C9.  The launch command is independent of the task: two
run configurations equal on agentId, agentType, specialization
and parentId produce the identical command string, and the task
body travels in the AGENT_TASK environment variable. -/
theorem buildAgentCommand_task_independent (c1 c2 : AgentRunConfig)
    (hid : c1.agentId = c2.agentId) (hty : c1.agentType = c2.agentType)
    (hsp : c1.specialization = c2.specialization)
    (hpa : c1.parentId = c2.parentId) :
    buildAgentCommand c1 = buildAgentCommand c2 ∧
    (buildAgentEnvVars c1).lookup "AGENT_TASK" = some c1.task ∧
    (buildAgentEnvVars c2).lookup "AGENT_TASK" = some c2.task := by
  obtain ⟨i1, t1, s1, k1, p1⟩ := c1
  obtain ⟨i2, t2, s2, k2, p2⟩ := c2
  simp only at hid hty hsp hpa
  subst hid
  subst hty
  subst hsp
  subst hpa
  refine ⟨rfl, ?_, ?_⟩ <;> simp [buildAgentEnvVars, List.lookup]

/-- Claim C9 witness: two concrete configurations differing only
in the task yield the same command, and the environment carries
each task. -/
theorem buildAgentCommand_task_independent_witness :
    cfgTaskA.task ≠ cfgTaskB.task ∧
    buildAgentCommand cfgTaskA = buildAgentCommand cfgTaskB ∧
    (buildAgentEnvVars cfgTaskA).lookup "AGENT_TASK" = some "task one" :=
  ⟨by decide,
   (buildAgentCommand_task_independent cfgTaskA cfgTaskB rfl rfl rfl rfl).1,
   (buildAgentCommand_task_independent cfgTaskA cfgTaskB rfl rfl rfl rfl).2.1⟩

/-- Claim C10.  For an agentId never registered with the sandbox
manager, kill returns normally leaving the state unchanged, while
execute, pause and resume fail with SandboxNotFoundError. -/
theorem manager_unregistered_agent_behavior (st : ManagerState)
    (agentId : String) (now : Nat)
    (h : st.agents.lookup agentId = none) :
    managerKill st agentId = st ∧
    managerExecute st agentId now = .error (.notFound agentId) ∧
    managerPause st agentId = .error (.notFound agentId) ∧
    managerResume st agentId now = .error (.notFound agentId) := by
  refine ⟨?_, ?_, ?_, ?_⟩ <;>
    simp [managerKill, managerExecute, managerPause, managerResume, h]

/-- Claim C10 witness: the empty manager state with an unknown
agent id. -/
theorem manager_unregistered_agent_behavior_witness :
    (ManagerState.mk []).agents.lookup "ghost" = none ∧
    managerKill (ManagerState.mk []) "ghost" = ManagerState.mk [] ∧
    managerExecute (ManagerState.mk []) "ghost" 0 =
      .error (.notFound "ghost") ∧
    managerPause (ManagerState.mk []) "ghost" =
      .error (.notFound "ghost") :=
  ⟨rfl,
   (manager_unregistered_agent_behavior (ManagerState.mk []) "ghost" 0 rfl).1,
   (manager_unregistered_agent_behavior (ManagerState.mk []) "ghost" 0
      rfl).2.1,
   (manager_unregistered_agent_behavior (ManagerState.mk []) "ghost" 0
      rfl).2.2.1⟩

end Coherence
